import Mathlib

/-!
Verification of the See-The-Play dashboard core: the real-time prediction
reconciliation engine and the lineup evaluation heuristic, shallowly embedded
from `frontend/src/App.js` (the "FINAL FIXED VERSIONs" file) and
`frontend/src/services/api.js`.  JavaScript numbers are modelled as `ℚ`
(with `ℝ` only where `Math.exp` forces it); JS `undefined` as `Option`;
the JS `x || d` fallback (which treats the number 0 and the empty string
as falsy) is modelled explicitly.
-/

namespace SeeThePlay

/-- JS `x || d` for numeric fields: `undefined` and `0` fall back to `d`. -/
def jsOr (x : Option ℚ) (d : ℚ) : ℚ :=
  match x with
  | none => d
  | some v => if v = 0 then d else v

/-- JS `x || d` for string fields: `undefined` and `""` fall back to `d`. -/
def strOr (x : Option String) (d : String) : String :=
  match x with
  | none => d
  | some s => if s = "" then d else s

/-- Snapshot of the simulated contest, as carried by `tick`,
`game_initialized` and `live_update` messages. -/
structure GameState where
  game_id : String
  quarter : Int
  time_remaining : String
  home_team : String
  away_team : String
  home_score : Int
  away_score : Int
  status : String
deriving DecidableEq, Repr

/-- The initial `GameState` built in `initializeDashboard`; it is the payload
the tick handler sends back in a `game_reset` request. -/
def initialGameState : GameState :=
  { game_id := "sim_game_001"
    quarter := 1
    time_remaining := "15:00"
    home_team := "Philadelphia Eagles"
    away_team := "Generic Opponents"
    home_score := 0
    away_score := 0
    status := "in_progress" }

/-- Outbound requests sent through `safeSend`. -/
inductive Outbound where
  | gameReset (data : GameState)
  | scenarioChange (scenarioType : String) (severity : ℚ)
  | cedarQuestion (question : String) (player_id : Option String)
deriving DecidableEq, Repr

/-- The `tick` branch of `websocket.onmessage`: given the current
(optional) game state and the optional `message.game_state`, return the new
game state together with the outbound requests issued.  A finished snapshot
(quarter 4, time `0:00`) is never applied; instead a `game_reset` carrying
the fixed `initialGameState` is sent. -/
def handleTick (cur : Option GameState) (incoming : Option GameState) :
    Option GameState × List Outbound :=
  match incoming with
  | none => (cur, [])
  | some gs =>
    if gs.quarter = 4 ∧ gs.time_remaining = "0:00" then
      (cur, [Outbound.gameReset initialGameState])
    else
      (some gs, [])

/-- A discrete live occurrence as retained by the dashboard
(`newEvent` in the `live_update` branch). -/
structure LiveEvent where
  id : String
  eventType : String
  description : String
  quarter : Int
  timestamp : String
deriving DecidableEq, Repr

/-- The `setLiveEvents` updater: drop the event if its identifier is already
retained, otherwise prepend it and keep the five most recent entries
(`[newEvent, ...prev].slice(0, 5)`). -/
def addLiveEvent (prev : List LiveEvent) (e : LiveEvent) : List LiveEvent :=
  if prev.any (fun x => x.id = e.id) then prev
  else ((e :: prev).take 5)

/-- A single per-stat projection (`predicted_value`, `confidence`,
`probability_over`, `live_stats` are all optional in the wire format). -/
structure Projection where
  predicted_value : Option ℚ
  confidence : Option ℚ
  probability_over : Option ℚ
  live_stats : Option ℚ
deriving DecidableEq, Repr

/-- The stat-category map of a prediction record; the lineup heuristic reads
exactly these four categories. -/
structure PredictionSet where
  touchdowns : Option Projection
  passing_yards : Option Projection
  rushing_yards : Option Projection
  receiving_yards : Option Projection
deriving DecidableEq, Repr

/-- A per-player prediction record (`p.prediction` in the stream,
or the payload returned by `getPlayerPredictions`). -/
structure Prediction where
  player_id : String
  player_name : Option String
  position : Option String
  overall_confidence : Option ℚ
  predictions : Option PredictionSet
deriving DecidableEq, Repr

/-- The optional explanation companion of a prediction record. -/
structure Explanation where
  overall_summary : Option String
  key_factors : List String
deriving DecidableEq, Repr

/-- One entry of the `predictions` state array: `{ prediction, explanation }`. -/
structure ForecastEntry where
  prediction : Prediction
  explanation : Option Explanation
deriving DecidableEq, Repr

/-- The `updated_prediction` handling inside the `live_update` branch:
find the entry whose `prediction.player_id` matches and overwrite it in
place; when no entry matches, the array is returned unchanged. -/
def applyUpdatedPrediction (prev : List ForecastEntry) (up : Prediction)
    (expl : Option Explanation) : List ForecastEntry :=
  match prev.findIdx? (fun p => p.prediction.player_id = up.player_id) with
  | some i => prev.set i { prediction := up, explanation := expl }
  | none => prev

/-- The transient scenario effect stored by `scenario_update`. -/
structure Scenario where
  description : Option String
deriving DecidableEq, Repr

/-- One entry of the conversation log. -/
structure ChatMessage where
  msgId : Nat
  role : String
  text : String
  playerName : Option String
  playerId : Option String
deriving DecidableEq, Repr

/-- The canonical client state mutated by `websocket.onmessage`. -/
structure DashboardState where
  gameState : Option GameState
  predictions : List ForecastEntry
  liveEvents : List LiveEvent
  scenario : Option Scenario
  chatMessages : List ChatMessage
  isAssistantThinking : Bool
  isConnected : Bool
deriving DecidableEq, Repr

/-- A successfully parsed inbound message, by `type` discriminator;
`unknownType` stands for any other `type` string. -/
inductive Message where
  | tick (game_state : Option GameState)
  | game_initialized (game_state : Option GameState)
      (initial_predictions : Option (List ForecastEntry))
  | live_update (game_state : Option GameState) (event : LiveEvent)
      (updated_prediction : Option Prediction) (explanation : Option Explanation)
  | scenario_update (scenario : Option Scenario)
      (updated_predictions : Option (List ForecastEntry))
  | cedar_answer (answer : Option String) (player_name : Option String)
      (player_id : Option String)
  | unknownType (typeTag : String)
deriving DecidableEq, Repr

/-- `websocket.onmessage`: `none` models a payload that failed to parse
(logged and dropped); the rest is the `message.type` dispatch.  `msgId`
models the `Date.now() + random` identifier minted for chat entries.
Returns the new state and the outbound requests issued. -/
def handleMessage (msgId : Nat) (s : DashboardState) (raw : Option Message) :
    DashboardState × List Outbound :=
  match raw with
  | none => (s, [])
  | some m =>
    match m with
    | .tick game_state =>
      let (gs, out) := handleTick s.gameState game_state
      ({ s with gameState := gs }, out)
    | .game_initialized game_state initial_predictions =>
      let preds :=
        match initial_predictions with
        | some l => if l.length > 0 then l else s.predictions
        | none => s.predictions
      ({ s with gameState := game_state, predictions := preds }, [])
    | .live_update game_state event updated_prediction explanation =>
      let preds :=
        match updated_prediction with
        | some up => applyUpdatedPrediction s.predictions up explanation
        | none => s.predictions
      ({ s with
          gameState := game_state
          liveEvents := addLiveEvent s.liveEvents event
          predictions := preds }, [])
    | .scenario_update scenario updated_predictions =>
      let preds :=
        match updated_predictions with
        | some l => l
        | none => s.predictions
      ({ s with scenario := scenario, predictions := preds }, [])
    | .cedar_answer answer player_name player_id =>
      let resolvedName :=
        match player_name with
        | some n => some n
        | none =>
          match player_id with
          | some pid =>
            match s.predictions.find? (fun p => p.prediction.player_id = pid) with
            | some found => found.prediction.player_name
            | none => none
          | none => none
      let assistantMsg : ChatMessage :=
        { msgId := msgId
          role := "assistant"
          text := strOr answer "No answer available."
          playerName := resolvedName
          playerId := player_id }
      ({ s with
          chatMessages := s.chatMessages ++ [assistantMsg]
          isAssistantThinking := false }, [])
    | .unknownType _ => (s, [])

/-! ## Lineup evaluator (`localEvaluateLineup` / `evaluateLineup`) -/

/-- `p.overall_confidence || 0.7`. -/
def confOf (p : Prediction) : ℚ := jsOr p.overall_confidence 0.7

/-- `p.predictions?.<cat>?.predicted_value || 0` for one stat category. -/
def statOf (p : Prediction) (cat : PredictionSet → Option Projection) : ℚ :=
  jsOr ((p.predictions.bind cat).bind Projection.predicted_value) 0

/-- `td * 6 + 0.02 * (passY + rushY + recvY)` accumulated per player. -/
def pointsOf (p : Prediction) : ℚ :=
  statOf p PredictionSet.touchdowns * 6 +
    0.02 * (statOf p PredictionSet.passing_yards +
      statOf p PredictionSet.rushing_yards +
      statOf p PredictionSet.receiving_yards)

/-- `passY + rushY + recvY` accumulated per player. -/
def yardsOf (p : Prediction) : ℚ :=
  statOf p PredictionSet.passing_yards +
    statOf p PredictionSet.rushing_yards +
    statOf p PredictionSet.receiving_yards

/-- One step of the `preds.forEach` accumulation in `summarize`:
the accumulator is `(confidenceSum, count, points, yards)`; a failed fetch
(`null` entry) is skipped. -/
def summarizeStep (acc : ℚ × ℕ × ℚ × ℚ) (p : Option Prediction) :
    ℚ × ℕ × ℚ × ℚ :=
  match p with
  | none => acc
  | some p =>
    (acc.1 + confOf p, acc.2.1 + 1, acc.2.2.1 + pointsOf p, acc.2.2.2 + yardsOf p)

/-- Result of `summarize`. -/
structure Summary where
  avgConfidence : ℚ
  points : ℚ
  yards : ℚ
deriving DecidableEq, Repr

/-- The `summarize` helper of `localEvaluateLineup`:
`avgConfidence = count ? confidenceSum / count : 0.7`. -/
def summarize (preds : List (Option Prediction)) : Summary :=
  let t := preds.foldl summarizeStep (0, 0, 0, 0)
  { avgConfidence := if t.2.1 = 0 then 0.7 else t.1 / (t.2.1 : ℚ)
    points := t.2.2.1
    yards := t.2.2.2 }

/-- `h.avgConfidence * 0.6 + (h.points / Math.max(1, a.points + 1)) * 0.4`. -/
def homeStrength (h a : Summary) : ℚ :=
  h.avgConfidence * 0.6 + (h.points / max 1 (a.points + 1)) * 0.4

/-- `a.avgConfidence * 0.6 + (a.points / Math.max(1, h.points + 1)) * 0.4`. -/
def awayStrength (h a : Summary) : ℚ :=
  a.avgConfidence * 0.6 + (a.points / max 1 (h.points + 1)) * 0.4

/-- `const sigmoid = (x) => 1 / (1 + Math.exp(-6 * x))`. -/
noncomputable def sigmoid (x : ℝ) : ℝ := 1 / (1 + Real.exp (-6 * x))

/-- The evaluation payload displayed by the playground; fields other than
`winProbability` are absent on the jittered fallback path. -/
structure EvaluationResult where
  winProbability : ℚ
  expectedPointsHome : Option ℚ
  expectedPointsAway : Option ℚ
  expectedYardsHome : Option ℤ
  expectedYardsAway : Option ℤ
  avgPlayerConfidenceHome : Option ℚ
  avgPlayerConfidenceAway : Option ℚ
deriving DecidableEq

/-- The `try` body of `localEvaluateLineup`, applied to the per-player
fetch results of the two sides (a `null` entry is a fetch that failed and
was caught).  `Math.round` is `round` (half up), and `Math.round (x*1000)/10`
is the one-decimal percentage. -/
noncomputable def localEvaluateBody (homePreds awayPreds : List (Option Prediction)) :
    EvaluationResult :=
  let h := summarize homePreds
  let a := summarize awayPreds
  let diff := homeStrength h a - awayStrength h a
  let winProbability : ℝ := max 0.02 (min 0.98 (sigmoid (diff : ℝ)))
  { winProbability := ((round (winProbability * 1000) : ℤ) : ℚ) / 10
    expectedPointsHome := some (((round (h.points * 10) : ℤ) : ℚ) / 10)
    expectedPointsAway := some (((round (a.points * 10) : ℤ) : ℚ) / 10)
    expectedYardsHome := some (round h.yards)
    expectedYardsAway := some (round a.yards)
    avgPlayerConfidenceHome := some (((round (h.avgConfidence * 1000) : ℤ) : ℚ) / 10)
    avgPlayerConfidenceAway := some (((round (a.avgConfidence * 1000) : ℤ) : ℚ) / 10) }

/-- The `catch` branch of `localEvaluateLineup`:
`{ winProbability: Math.round((0.5 + (Math.random()-0.5)*0.15)*1000)/10 }`,
with the `Math.random()` draw `r ∈ [0,1)` passed explicitly. -/
def fallbackResult (r : ℚ) : EvaluationResult :=
  { winProbability := ((round ((0.5 + (r - 0.5) * 0.15) * 1000) : ℤ) : ℚ) / 10
    expectedPointsHome := none
    expectedPointsAway := none
    expectedYardsHome := none
    expectedYardsAway := none
    avgPlayerConfidenceHome := none
    avgPlayerConfidenceAway := none }

/-- `localEvaluateLineup`: `body = some (homePreds, awayPreds)` when the
`try` block runs to completion on the fetch results, `body = none` when it
throws and the `catch` fallback fires. -/
noncomputable def localEvaluateLineup
    (body : Option (List (Option Prediction) × List (Option Prediction)))
    (r : ℚ) : EvaluationResult :=
  match body with
  | some (hp, ap) => localEvaluateBody hp ap
  | none => fallbackResult r

/-- `evaluateLineup`: the server answer is used as-is when it arrives with a
non-null `winProbability` (`server = some res`); otherwise — server failure
or a malformed reply — the local heuristic runs. -/
noncomputable def evaluateLineup (server : Option EvaluationResult)
    (body : Option (List (Option Prediction) × List (Option Prediction)))
    (r : ℚ) : EvaluationResult :=
  match server with
  | some res => res
  | none => localEvaluateLineup body r

/-! ## Display post-processing of confidence and probability fields -/

/-- `ConfidenceCircle`: `pct = Math.max(0, Math.min(1, Number(confidence) || 0))`
(an absent value coerces to `NaN` and falls back to `0`). -/
def confidenceCirclePct (confidence : Option ℚ) : ℚ :=
  max 0 (min 1 (jsOr confidence 0))

/-- The per-stat card renders `Over: ${(statData.probability_over * 100).toFixed(0)}%`
with no clamping; the displayed fraction is the raw field value. -/
def statProbOverDisplayed (probability_over : ℚ) : ℚ := probability_over

/-- The per-stat confidence bar renders `width: ${statData.confidence * 100}%`
with no clamping; the displayed fraction is the raw field value. -/
def statConfidenceDisplayed (confidence : ℚ) : ℚ := confidence

/-! ## Spec-side definitions, for the refinement claims -/

/-- The spec's per-player points formula:
`6 × predicted_touchdowns + 0.02 × (passing + rushing + receiving yards)`. -/
def specPoints (p : Prediction) : ℚ :=
  6 * statOf p PredictionSet.touchdowns +
    0.02 * (statOf p PredictionSet.passing_yards +
      statOf p PredictionSet.rushing_yards +
      statOf p PredictionSet.receiving_yards)

/-- The spec's per-player yardage contribution: the plain sum of the three
yardage categories. -/
def specYards (p : Prediction) : ℚ :=
  statOf p PredictionSet.passing_yards +
    statOf p PredictionSet.rushing_yards +
    statOf p PredictionSet.receiving_yards

/-- The spec's side strength:
`0.6 × avgConfidence + 0.4 × (ownPoints / (opponentPoints + 1))`. -/
def specStrength (own opp : Summary) : ℚ :=
  0.6 * own.avgConfidence + 0.4 * (own.points / (opp.points + 1))

/-- The spec's side average confidence: the mean of the available records'
`overall_confidence` (each defaulting to `0.7` when missing), `0.7` outright
when there is no record to average. -/
def specAvgConfidence (preds : List (Option Prediction)) : ℚ :=
  if preds.filterMap id = [] then 0.7
  else ((preds.filterMap id).map confOf).sum / ((preds.filterMap id).length : ℚ)

/-- The spec's win probability:
the logistic sigmoid of `6 × (homeStrength − awayStrength)`, clamped to
`[0.02, 0.98]`. -/
noncomputable def specWinProbability (hS aS : ℚ) : ℝ :=
  max 0.02 (min 0.98 (1 / (1 + Real.exp (-(6 * ((hS - aS : ℚ) : ℝ))))))

/-! ## Concrete sample inputs used by witnesses and counterexamples -/

/-- A finished snapshot (quarter 4, `0:00`) for a game between teams that are
not the initial session's teams. -/
def finishedForeignTick : GameState :=
  { game_id := "sim_game_002"
    quarter := 4
    time_remaining := "0:00"
    home_team := "Dallas Cowboys"
    away_team := "New York Giants"
    home_score := 21
    away_score := 17
    status := "in_progress" }

/-- A minimal prediction record for a player with high confidence and no
stat projections. -/
def pWitness : Prediction :=
  { player_id := "w1"
    player_name := some "Wit Ness"
    position := some "QB"
    overall_confidence := some (9/10)
    predictions := none }

/-- A sample live event. -/
def evWitnessA : LiveEvent :=
  { id := "e1", eventType := "pass", description := "completed pass"
    quarter := 1, timestamp := "00:14:10" }

/-- A second sample live event with a distinct identifier. -/
def evWitnessB : LiveEvent :=
  { id := "e2", eventType := "rush", description := "rush up the middle"
    quarter := 1, timestamp := "00:13:55" }

/-- A sample forecast entry for player `p1`. -/
def forecastWitness : ForecastEntry :=
  { prediction :=
      { player_id := "p1"
        player_name := some "Player One"
        position := some "QB"
        overall_confidence := some (8/10)
        predictions := none }
    explanation := none }

/-- An updated prediction record for the same player `p1`. -/
def updWitness : Prediction :=
  { player_id := "p1"
    player_name := some "Player One"
    position := some "QB"
    overall_confidence := some (6/10)
    predictions := none }

/-! ## Helper lemmas -/

/-- `round` is monotone in any linear ordered field with a floor. -/
lemma round_mono_of_le {α : Type} [LinearOrderedField α] [FloorRing α]
    {x y : α} (h : x ≤ y) : round x ≤ round y := by
  rw [round_eq, round_eq]
  exact Int.floor_mono (by linarith)

lemma sigmoid_mono_of_le {x y : ℝ} (h : x ≤ y) : sigmoid x ≤ sigmoid y := by
  unfold sigmoid
  have hx : (0 : ℝ) < 1 + Real.exp (-6 * x) := by positivity
  have hy : (0 : ℝ) < 1 + Real.exp (-6 * y) := by positivity
  have hle : 1 + Real.exp (-6 * y) ≤ 1 + Real.exp (-6 * x) := by
    have := Real.exp_le_exp.mpr (show -6 * y ≤ -6 * x by linarith)
    linarith
  exact one_div_le_one_div_of_le hy hle

lemma sigmoid_zero : sigmoid 0 = 1 / 2 := by
  unfold sigmoid
  norm_num [Real.exp_zero]

/-- Characterisation of the `forEach` accumulation in `summarize`:
the accumulator collects the sums and the count over the available
(non-`null`) records. -/
lemma foldl_summarizeStep (preds : List (Option Prediction)) :
    ∀ init : ℚ × ℕ × ℚ × ℚ,
      preds.foldl summarizeStep init =
        (init.1 + ((preds.filterMap id).map confOf).sum,
         init.2.1 + (preds.filterMap id).length,
         init.2.2.1 + ((preds.filterMap id).map pointsOf).sum,
         init.2.2.2 + ((preds.filterMap id).map yardsOf).sum) := by
  induction preds with
  | nil => intro init; simp
  | cons p rest ih =>
    intro init
    cases p with
    | none =>
      simp [summarizeStep, ih init]
    | some q =>
      simp only [List.foldl_cons, summarizeStep, ih, List.filterMap_cons_some,
        List.map_cons, List.sum_cons, List.length_cons, id_eq]
      refine Prod.ext ?_ (Prod.ext ?_ (Prod.ext ?_ ?_)) <;> simp <;> try ring

/-- `summarize` in closed form. -/
lemma summarize_eq (preds : List (Option Prediction)) :
    summarize preds =
      { avgConfidence :=
          if (preds.filterMap id).length = 0 then 0.7
          else ((preds.filterMap id).map confOf).sum / ((preds.filterMap id).length : ℚ)
        points := ((preds.filterMap id).map pointsOf).sum
        yards := ((preds.filterMap id).map yardsOf).sum } := by
  unfold summarize
  rw [foldl_summarizeStep]
  simp

lemma summarize_replicate_none (n : ℕ) :
    summarize (List.replicate n none) = { avgConfidence := 0.7, points := 0, yards := 0 } := by
  rw [summarize_eq]
  have h : (List.replicate n (none : Option Prediction)).filterMap id = [] := by
    induction n with
    | zero => simp
    | succ k ih => simp [List.replicate_succ, ih]
  simp [h]

lemma summarize_nil : summarize [] = { avgConfidence := 0.7, points := 0, yards := 0 } := by
  simpa using summarize_replicate_none 0

/-- The clamped sigmoid at zero strength difference, scaled and rounded,
is exactly 50 percent. -/
lemma round_clamped_sigmoid_zero :
    ((round ((max 0.02 (min 0.98 (sigmoid ((0 : ℚ) : ℝ))) : ℝ) * 1000) : ℤ) : ℚ) / 10 = 50 := by
  have h0 : ((0 : ℚ) : ℝ) = 0 := by norm_num
  rw [h0, sigmoid_zero]
  have hmin : min (0.98 : ℝ) (1 / 2) = 1 / 2 := by norm_num
  have hmax : max (0.02 : ℝ) (1 / 2) = 1 / 2 := by norm_num
  rw [hmin, hmax]
  have : ((1 : ℝ) / 2) * 1000 = ((500 : ℤ) : ℝ) := by norm_num
  rw [this, round_intCast]
  norm_num

/-- Replaying an already-retained identifier is a no-op for the event list. -/
lemma addLiveEvent_dup {l : List LiveEvent} {e : LiveEvent}
    (h : e.id ∈ l.map LiveEvent.id) : addLiveEvent l e = l := by
  unfold addLiveEvent
  have hany : l.any (fun x => x.id = e.id) = true := by
    simp only [List.any_eq_true, decide_eq_true_eq]
    obtain ⟨x, hx, hid⟩ := List.mem_map.mp h
    exact ⟨x, hx, hid⟩
  simp [hany]

/-- One `live_update` preserves identifier uniqueness and the size bound. -/
lemma addLiveEvent_inv {l : List LiveEvent} (e : LiveEvent)
    (hnd : (l.map LiveEvent.id).Nodup) (hlen : l.length ≤ 5) :
    ((addLiveEvent l e).map LiveEvent.id).Nodup ∧ (addLiveEvent l e).length ≤ 5 := by
  unfold addLiveEvent
  by_cases h : l.any (fun x => x.id = e.id) = true
  · simp [h, hnd, hlen]
  · rw [if_neg h]
    constructor
    · have hne : e.id ∉ l.map LiveEvent.id := by
        intro hmem
        obtain ⟨x, hx, hid⟩ := List.mem_map.mp hmem
        exact h (by simp only [List.any_eq_true, decide_eq_true_eq]; exact ⟨x, hx, hid⟩)
      have hcons : ((e :: l).map LiveEvent.id).Nodup := by
        simp [List.nodup_cons, hne, hnd]
      rw [List.map_take]
      exact (List.take_sublist 5 _).nodup (by simpa using hcons)
    · simp [List.length_take]

/-- The fold of a `live_update` sequence keeps the invariant. -/
lemma foldl_addLiveEvent_inv (es : List LiveEvent) :
    ∀ l : List LiveEvent, (l.map LiveEvent.id).Nodup → l.length ≤ 5 →
      ((es.foldl addLiveEvent l).map LiveEvent.id).Nodup ∧
      (es.foldl addLiveEvent l).length ≤ 5 := by
  induction es with
  | nil => intro l h1 h2; exact ⟨h1, h2⟩
  | cons e rest ih =>
    intro l h1 h2
    have hstep := addLiveEvent_inv e h1 h2
    exact ih _ hstep.1 hstep.2

/-- The retained list stays a sublist of the reversed arrival sequence
(appended to whatever was retained before): the display is ordered
newest-arrival first. -/
lemma foldl_addLiveEvent_sublist (es : List LiveEvent) :
    ∀ l rs : List LiveEvent, l.Sublist rs →
      (es.foldl addLiveEvent l).Sublist (es.reverse ++ rs) := by
  induction es with
  | nil => intro l rs h; simpa using h
  | cons e rest ih =>
    intro l rs h
    have hstep : (addLiveEvent l e).Sublist (e :: rs) := by
      unfold addLiveEvent
      by_cases hc : l.any (fun x => x.id = e.id) = true
      · rw [if_pos hc]; exact h.cons e
      · rw [if_neg hc]
        exact (List.take_sublist 5 _).trans (h.cons₂ e)
    have hrec := ih (addLiveEvent l e) (e :: rs) hstep
    simpa [List.reverse_cons, List.append_assoc] using hrec

lemma pointsOf_eq_specPoints : pointsOf = specPoints := by
  funext p
  unfold pointsOf specPoints
  ring

lemma yardsOf_eq_specYards : yardsOf = specYards := rfl

/-- When the two sides summarize identically the strength difference is zero
and the reported win probability is exactly 50 percent. -/
lemma body_winProb_of_eq_summaries (hp ap : List (Option Prediction))
    (h : summarize hp = summarize ap) :
    (localEvaluateBody hp ap).winProbability = 50 := by
  have hfield : (localEvaluateBody hp ap).winProbability =
      ((round ((max 0.02 (min 0.98 (sigmoid
        (((homeStrength (summarize hp) (summarize ap) -
           awayStrength (summarize hp) (summarize ap) : ℚ)) : ℝ))) : ℝ) * 1000) : ℤ) : ℚ) / 10 := rfl
  rw [hfield, h]
  have hdiff : homeStrength (summarize ap) (summarize ap) -
      awayStrength (summarize ap) (summarize ap) = (0 : ℚ) := by
    unfold homeStrength awayStrength
    ring
  rw [hdiff]
  exact round_clamped_sigmoid_zero

/-- The clamped-and-rounded per-mille value always lands in `[20, 980]`. -/
lemma round_clamp_bounds (s : ℝ) :
    (20 : ℤ) ≤ round ((max 0.02 (min 0.98 s) : ℝ) * 1000) ∧
    round ((max 0.02 (min 0.98 s) : ℝ) * 1000) ≤ 980 := by
  have hlo : (0.02 : ℝ) ≤ max 0.02 (min 0.98 s) := le_max_left _ _
  have hhi : max (0.02 : ℝ) (min 0.98 s) ≤ 0.98 :=
    max_le (by norm_num) (min_le_left _ _)
  constructor
  · have h20 : ((20 : ℤ) : ℝ) ≤ (max 0.02 (min 0.98 s) : ℝ) * 1000 := by
      push_cast
      nlinarith
    have hm := round_mono_of_le h20
    rwa [round_intCast] at hm
  · have h980 : (max 0.02 (min 0.98 s) : ℝ) * 1000 ≤ ((980 : ℤ) : ℝ) := by
      push_cast
      nlinarith
    have hm := round_mono_of_le h980
    rwa [round_intCast] at hm

/-- The heuristic success path reports a percentage in `[2, 98]`. -/
lemma body_winProb_mem (hp ap : List (Option Prediction)) :
    2 ≤ (localEvaluateBody hp ap).winProbability ∧
    (localEvaluateBody hp ap).winProbability ≤ 98 := by
  obtain ⟨hl, hr⟩ := round_clamp_bounds (sigmoid
    (((homeStrength (summarize hp) (summarize ap) -
       awayStrength (summarize hp) (summarize ap) : ℚ)) : ℝ))
  have hfield : (localEvaluateBody hp ap).winProbability =
      ((round ((max 0.02 (min 0.98 (sigmoid
        (((homeStrength (summarize hp) (summarize ap) -
           awayStrength (summarize hp) (summarize ap) : ℚ)) : ℝ))) : ℝ) * 1000) : ℤ) : ℚ) / 10 := rfl
  rw [hfield]
  set k : ℤ := round ((max 0.02 (min 0.98 (sigmoid
    (((homeStrength (summarize hp) (summarize ap) -
       awayStrength (summarize hp) (summarize ap) : ℚ)) : ℝ))) : ℝ) * 1000) with hk
  have hl' : ((20 : ℤ) : ℚ) ≤ (k : ℚ) := Int.cast_le.mpr hl
  have hr' : (k : ℚ) ≤ ((980 : ℤ) : ℚ) := Int.cast_le.mpr hr
  push_cast at hl' hr'
  constructor
  · linarith
  · linarith

/-- The jittered catch fallback lands in `[42.5, 57.5]`. -/
lemma fallback_winProb_bounds {r : ℚ} (h0 : 0 ≤ r) (h1 : r < 1) :
    (425 : ℚ) / 10 ≤ (fallbackResult r).winProbability ∧
    (fallbackResult r).winProbability ≤ (575 : ℚ) / 10 := by
  have hfield : (fallbackResult r).winProbability =
      ((round ((0.5 + (r - 0.5) * 0.15) * 1000 : ℚ) : ℤ) : ℚ) / 10 := rfl
  have hval : ((0.5 + (r - 0.5) * 0.15) * 1000 : ℚ) = 425 + 150 * r := by ring
  have hlo : (425 : ℤ) ≤ round ((0.5 + (r - 0.5) * 0.15) * 1000 : ℚ) := by
    have h425 : ((425 : ℤ) : ℚ) ≤ (0.5 + (r - 0.5) * 0.15) * 1000 := by
      rw [hval]
      push_cast
      linarith
    have hm := round_mono_of_le h425
    rwa [round_intCast] at hm
  have hhi : round ((0.5 + (r - 0.5) * 0.15) * 1000 : ℚ) ≤ (575 : ℤ) := by
    have h575 : ((0.5 + (r - 0.5) * 0.15) * 1000 : ℚ) ≤ ((575 : ℤ) : ℚ) := by
      rw [hval]
      push_cast
      linarith
    have hm := round_mono_of_le h575
    rwa [round_intCast] at hm
  rw [hfield]
  set k : ℤ := round ((0.5 + (r - 0.5) * 0.15) * 1000 : ℚ) with hk
  have hlo' : ((425 : ℤ) : ℚ) ≤ (k : ℚ) := Int.cast_le.mpr hlo
  have hhi' : (k : ℚ) ≤ ((575 : ℤ) : ℚ) := Int.cast_le.mpr hhi
  push_cast at hlo' hhi'
  constructor
  · linarith
  · linarith

/-! ## Claim theorems -/

/-- C1 counterexample: on a finished tick (`quarter` 4, `time_remaining`
`"0:00"`) for a game between the Cowboys and the Giants, the engine sends a
single `game_reset` whose data is the fixed `initialGameState` — its team
identities are those of the initial session, not of the incoming state, so
the claim's "same team identities as the incoming state" fails. -/
theorem tick_reset_ignores_incoming_teams :
    (handleTick (some initialGameState) (some finishedForeignTick)).2 =
      [Outbound.gameReset initialGameState] ∧
    (handleTick (some initialGameState) (some finishedForeignTick)).1 =
      some initialGameState ∧
    initialGameState.home_team ≠ finishedForeignTick.home_team ∧
    initialGameState.away_team ≠ finishedForeignTick.away_team :=
  ⟨rfl, rfl, by decide, by decide⟩

/-- C1 (amended): a tick whose `game_state` reports quarter 4 with
`"0:00"` remaining never replaces the displayed state; instead exactly one
outbound `game_reset` is sent carrying the fixed initial `GameState`
(quarter 1, zero scores, the initial session's team identities); every other
tick that carries a `game_state` replaces the state wholesale with it, and a
tick without a `game_state` is ignored. -/
theorem tick_rollover (cur : Option GameState) (gs : GameState) :
    (gs.quarter = 4 → gs.time_remaining = "0:00" →
      handleTick cur (some gs) = (cur, [Outbound.gameReset initialGameState]) ∧
      initialGameState.quarter = 1 ∧ initialGameState.home_score = 0 ∧
      initialGameState.away_score = 0) ∧
    (¬(gs.quarter = 4 ∧ gs.time_remaining = "0:00") →
      handleTick cur (some gs) = (some gs, [])) ∧
    handleTick cur none = (cur, []) := by
  refine ⟨fun h1 h2 => ⟨?_, rfl, rfl, rfl⟩, fun h => ?_, rfl⟩
  · simp [handleTick, h1, h2]
  · simp [handleTick, h]

/-- Witness for `tick_rollover`: a finished foreign tick triggers the reset
request and leaves the state alone; a quarter-1 tick is applied wholesale. -/
theorem tick_rollover_witness :
    handleTick none (some finishedForeignTick) =
      (none, [Outbound.gameReset initialGameState]) ∧
    handleTick none (some initialGameState) = (some initialGameState, []) :=
  ⟨((tick_rollover none finishedForeignTick).1 rfl rfl).1,
   (tick_rollover none initialGameState).2.1 (by decide)⟩

/-- C6: after any sequence of `live_update` events the retained live-event
list has pairwise distinct identifiers, holds at most five entries, and is
ordered newest-arrival first (it is a sublist of the reversed arrival
sequence); an update whose identifier is already retained leaves the list
unchanged. -/
theorem live_events_dedup_invariant (es : List LiveEvent) :
    (((es.foldl addLiveEvent []).map LiveEvent.id).Nodup ∧
      (es.foldl addLiveEvent []).length ≤ 5 ∧
      (es.foldl addLiveEvent []).Sublist es.reverse) ∧
    ∀ (l : List LiveEvent) (e : LiveEvent),
      e.id ∈ l.map LiveEvent.id → addLiveEvent l e = l := by
  refine ⟨⟨?_, ?_, ?_⟩, fun l e h => addLiveEvent_dup h⟩
  · exact (foldl_addLiveEvent_inv es [] (by simp) (by simp)).1
  · exact (foldl_addLiveEvent_inv es [] (by simp) (by simp)).2
  · simpa using foldl_addLiveEvent_sublist es [] [] (List.Sublist.refl [])

/-- Witness for `live_events_dedup_invariant`: replaying the retained event
`e1` leaves the one-element list unchanged. -/
theorem live_events_dedup_invariant_witness :
    addLiveEvent [evWitnessA] evWitnessA = [evWitnessA] :=
  (live_events_dedup_invariant [evWitnessB]).2 [evWitnessA] evWitnessA (by decide)

/-- C7: an `updated_prediction` for a player present in the forecast set
replaces that player's entry in place — same index, same length, every other
index untouched — and an update for an unknown player identifier leaves the
set entirely unchanged. -/
theorem updated_prediction_stable (prev : List ForecastEntry) (up : Prediction)
    (expl : Option Explanation) :
    ((∀ e ∈ prev, e.prediction.player_id ≠ up.player_id) →
      applyUpdatedPrediction prev up expl = prev) ∧
    ∀ i : ℕ, prev.findIdx? (fun p => p.prediction.player_id = up.player_id) = some i →
      applyUpdatedPrediction prev up expl =
        prev.set i { prediction := up, explanation := expl } ∧
      (applyUpdatedPrediction prev up expl).length = prev.length ∧
      (applyUpdatedPrediction prev up expl)[i]? =
        some { prediction := up, explanation := expl } ∧
      ∀ j : ℕ, j ≠ i → (applyUpdatedPrediction prev up expl)[j]? = prev[j]? := by
  constructor
  · intro hall
    unfold applyUpdatedPrediction
    have hnone : prev.findIdx? (fun p => p.prediction.player_id = up.player_id) = none := by
      rw [List.findIdx?_eq_none_iff]
      intro x hx
      simpa using hall x hx
    rw [hnone]
  · intro i hi
    have hlt : i < prev.length := (List.findIdx?_eq_some_iff_findIdx_eq.mp hi).1
    have happ : applyUpdatedPrediction prev up expl =
        prev.set i { prediction := up, explanation := expl } := by
      unfold applyUpdatedPrediction
      rw [hi]
    refine ⟨happ, ?_, ?_, ?_⟩
    · rw [happ, List.length_set]
    · rw [happ]
      exact List.getElem?_set_self hlt
    · intro j hj
      rw [happ]
      exact List.getElem?_set_ne (by omega)

/-- Witness for `updated_prediction_stable`: updating `p1` overwrites index 0
of a singleton forecast set; an update for the unknown `w1` is dropped. -/
theorem updated_prediction_stable_witness :
    applyUpdatedPrediction [forecastWitness] updWitness none =
      [forecastWitness].set 0 { prediction := updWitness, explanation := none } ∧
    applyUpdatedPrediction [forecastWitness] pWitness none = [forecastWitness] :=
  ⟨((updated_prediction_stable [forecastWitness] updWitness none).2 0 (by decide)).1,
   (updated_prediction_stable [forecastWitness] pWitness none).1 (by decide)⟩

/-- C8 counterexample: the per-stat card displays `probability_over` and
`confidence` without clamping — the upstream value `1.4` is displayed as a
fraction of `1.4` (shown as `140%`), outside `[0, 1]` — even though
`ConfidenceCircle` does clamp the same input to `1`. -/
theorem stat_fields_not_clamped :
    statProbOverDisplayed (14/10) = 14/10 ∧
    ¬ statProbOverDisplayed (14/10) ≤ 1 ∧
    statConfidenceDisplayed (14/10) = 14/10 ∧
    confidenceCirclePct (some (14/10)) = 1 := by
  refine ⟨rfl, by norm_num [statProbOverDisplayed], rfl, ?_⟩
  norm_num [confidenceCirclePct, jsOr]

/-- C8 (amended): only the overall-confidence indicator clamps: the value
rendered by `ConfidenceCircle` always lies in `[0, 1]` whatever the upstream
input (for example `1.4` is displayed as `1.0`), while the per-stat
`confidence` and `probability_over` fields are displayed raw, without any
clamping. -/
theorem confidence_circle_clamped (c : Option ℚ) (x : ℚ) :
    0 ≤ confidenceCirclePct c ∧ confidenceCirclePct c ≤ 1 ∧
    confidenceCirclePct (some (14/10)) = 1 ∧
    statProbOverDisplayed x = x ∧ statConfidenceDisplayed x = x := by
  refine ⟨le_max_left _ _, max_le (by norm_num) (min_le_left _ _), ?_, rfl, rfl⟩
  norm_num [confidenceCirclePct, jsOr]

/-- C9: a stream payload that fails to parse is dropped — the handler returns
the state unchanged (game state, forecasts, live events, scenario, chat log,
composing flag and connectivity status all intact) and sends nothing — and a
successfully parsed message whose `type` is not one of the five known tags
likewise leaves all state unchanged. -/
theorem malformed_and_unknown_ignored :
    (∀ (msgId : Nat) (s : DashboardState), handleMessage msgId s none = (s, [])) ∧
    (∀ (msgId : Nat) (s : DashboardState) (t : String),
      handleMessage msgId s (some (Message.unknownType t)) = (s, [])) :=
  ⟨fun _ _ => rfl, fun _ _ _ => rfl⟩

/-- C3: each available player's points estimate is
`6 × touchdowns + 0.02 × (passing + rushing + receiving yards)` with absent
stat categories contributing `0` (built into `statOf`), a side's yards total
is the plain sum of the three yardage categories over its available players,
and the reported yard totals are rounded to the nearest integer. -/
theorem heuristic_points_and_yards (preds hp ap : List (Option Prediction)) :
    (summarize preds).points = ((preds.filterMap id).map specPoints).sum ∧
    (summarize preds).yards = ((preds.filterMap id).map specYards).sum ∧
    (localEvaluateBody hp ap).expectedYardsHome = some (round (summarize hp).yards) ∧
    (localEvaluateBody hp ap).expectedYardsAway = some (round (summarize ap).yards) := by
  refine ⟨?_, ?_, rfl, rfl⟩
  · rw [summarize_eq, ← pointsOf_eq_specPoints]
  · rw [summarize_eq, ← yardsOf_eq_specYards]

/-- C2: whenever both sides' accumulated points are non-negative (as they
are for non-negative predicted stats), each side's strength is exactly the
spec's `0.6 × avgConfidence + 0.4 × (ownPoints / (opponentPoints + 1))`,
the code's average confidence is the spec's (mean of available records'
`overall_confidence` with the `0.7` default, `0.7` when there is nothing to
average), and the reported win probability is the logistic sigmoid of
`6 × (homeStrength − awayStrength)` clamped to `[0.02, 0.98]` and reported
as a percentage rounded to one decimal place. -/
theorem heuristic_strength_and_winprob (hp ap : List (Option Prediction))
    (hh : 0 ≤ (summarize hp).points) (ha : 0 ≤ (summarize ap).points) :
    homeStrength (summarize hp) (summarize ap) =
      specStrength (summarize hp) (summarize ap) ∧
    awayStrength (summarize hp) (summarize ap) =
      specStrength (summarize ap) (summarize hp) ∧
    (summarize hp).avgConfidence = specAvgConfidence hp ∧
    (localEvaluateBody hp ap).winProbability =
      ((round (specWinProbability
          (specStrength (summarize hp) (summarize ap))
          (specStrength (summarize ap) (summarize hp)) * 1000) : ℤ) : ℚ) / 10 := by
  have hmaxA : max (1 : ℚ) ((summarize ap).points + 1) = (summarize ap).points + 1 :=
    max_eq_right (by linarith)
  have hmaxH : max (1 : ℚ) ((summarize hp).points + 1) = (summarize hp).points + 1 :=
    max_eq_right (by linarith)
  have h1 : homeStrength (summarize hp) (summarize ap) =
      specStrength (summarize hp) (summarize ap) := by
    unfold homeStrength specStrength
    rw [hmaxA]
    ring
  have h2 : awayStrength (summarize hp) (summarize ap) =
      specStrength (summarize ap) (summarize hp) := by
    unfold awayStrength specStrength
    rw [hmaxH]
    ring
  have h3 : (summarize hp).avgConfidence = specAvgConfidence hp := by
    rw [summarize_eq]
    unfold specAvgConfidence
    simp [List.length_eq_zero]
  refine ⟨h1, h2, h3, ?_⟩
  have hfield : (localEvaluateBody hp ap).winProbability =
      ((round ((max 0.02 (min 0.98 (sigmoid
        (((homeStrength (summarize hp) (summarize ap) -
           awayStrength (summarize hp) (summarize ap) : ℚ)) : ℝ))) : ℝ) * 1000) : ℤ) : ℚ) / 10 := rfl
  rw [hfield]
  have hclamp : (max 0.02 (min 0.98 (sigmoid
      (((homeStrength (summarize hp) (summarize ap) -
         awayStrength (summarize hp) (summarize ap) : ℚ)) : ℝ))) : ℝ) =
      specWinProbability
        (specStrength (summarize hp) (summarize ap))
        (specStrength (summarize ap) (summarize hp)) := by
    unfold sigmoid specWinProbability
    rw [h1, h2, neg_mul]
  rw [hclamp]

/-- Witness for `heuristic_strength_and_winprob`: one high-confidence home
player with no stat projections against an all-failed away fetch list. -/
theorem heuristic_strength_and_winprob_witness :
    homeStrength (summarize [some pWitness]) (summarize [none]) =
      specStrength (summarize [some pWitness]) (summarize [none]) ∧
    awayStrength (summarize [some pWitness]) (summarize [none]) =
      specStrength (summarize [none]) (summarize [some pWitness]) ∧
    (summarize [some pWitness]).avgConfidence = specAvgConfidence [some pWitness] ∧
    (localEvaluateBody [some pWitness] [none]).winProbability =
      ((round (specWinProbability
          (specStrength (summarize [some pWitness]) (summarize [none]))
          (specStrength (summarize [none]) (summarize [some pWitness])) * 1000) : ℤ) : ℚ) / 10 :=
  heuristic_strength_and_winprob [some pWitness] [none]
    (by norm_num [summarize, summarizeStep, pointsOf, statOf, jsOr, pWitness])
    (by norm_num [summarize, summarizeStep])

/-- C10: with no player assigned on either side the local heuristic reports
a win probability of exactly 50.0 percent, zero expected points and yards on
both sides, and a 70.0 percent average confidence for both sides (both sides
get the default confidence `0.7` and zero points, so the strengths coincide
and the sigmoid argument is zero). -/
theorem empty_rosters_neutral_eval :
    (localEvaluateBody [] []).winProbability = 50 ∧
    (localEvaluateBody [] []).expectedPointsHome = some 0 ∧
    (localEvaluateBody [] []).expectedPointsAway = some 0 ∧
    (localEvaluateBody [] []).expectedYardsHome = some 0 ∧
    (localEvaluateBody [] []).expectedYardsAway = some 0 ∧
    (localEvaluateBody [] []).avgPlayerConfidenceHome = some 70 ∧
    (localEvaluateBody [] []).avgPlayerConfidenceAway = some 70 := by
  have hs : summarize ([] : List (Option Prediction)) =
      { avgConfidence := 0.7, points := 0, yards := 0 } := summarize_nil
  refine ⟨body_winProb_of_eq_summaries [] [] rfl, ?_, ?_, ?_, ?_, ?_, ?_⟩
  · have hfield : (localEvaluateBody [] []).expectedPointsHome =
        some (((round ((summarize ([] : List (Option Prediction))).points * 10) : ℤ) : ℚ) / 10) := rfl
    rw [hfield, hs]
    norm_num
  · have hfield : (localEvaluateBody [] []).expectedPointsAway =
        some (((round ((summarize ([] : List (Option Prediction))).points * 10) : ℤ) : ℚ) / 10) := rfl
    rw [hfield, hs]
    norm_num
  · have hfield : (localEvaluateBody [] []).expectedYardsHome =
        some (round (summarize ([] : List (Option Prediction))).yards) := rfl
    rw [hfield, hs]
    norm_num
  · have hfield : (localEvaluateBody [] []).expectedYardsAway =
        some (round (summarize ([] : List (Option Prediction))).yards) := rfl
    rw [hfield, hs]
    norm_num
  · have hfield : (localEvaluateBody [] []).avgPlayerConfidenceHome =
        some (((round ((summarize ([] : List (Option Prediction))).avgConfidence * 1000) : ℤ) : ℚ) / 10) := rfl
    rw [hfield, hs]
    have h700 : ((0.7 : ℚ) * 1000) = ((700 : ℤ) : ℚ) := by norm_num
    simp only [h700, round_intCast]
    norm_num
  · have hfield : (localEvaluateBody [] []).avgPlayerConfidenceAway =
        some (((round ((summarize ([] : List (Option Prediction))).avgConfidence * 1000) : ℤ) : ℚ) / 10) := rfl
    rw [hfield, hs]
    have h700 : ((0.7 : ℚ) * 1000) = ((700 : ℤ) : ℚ) := by norm_num
    simp only [h700, round_intCast]
    norm_num

/-- C5 counterexample: at the total-failure input (server failed, both
per-player fetch lists all failed) with the random draw `r = 0.9`, the code
returns exactly 50.0 — the heuristic completed on empty data — while the
jittered fallback formula at that draw yields 56.0, so the claim that the
total-failure value "is a neutral fallback jittered uniformly around 50
percent" is false. -/
theorem total_failure_returns_fifty_not_jitter :
    (evaluateLineup none (some ([none], [none])) (9/10)).winProbability = 50 ∧
    (fallbackResult (9/10)).winProbability = 56 ∧
    (evaluateLineup none (some ([none], [none])) (9/10)).winProbability ≠
      (fallbackResult (9/10)).winProbability := by
  have h50 : (evaluateLineup none (some ([none], [none])) (9/10)).winProbability = 50 := by
    have hx : (evaluateLineup none (some ([none], [none])) (9/10)).winProbability =
        (localEvaluateBody [none] [none]).winProbability := rfl
    rw [hx]
    exact body_winProb_of_eq_summaries [none] [none] rfl
  have h56 : (fallbackResult (9/10)).winProbability = 56 := by
    have hfield : (fallbackResult (9/10)).winProbability =
        ((round ((0.5 + ((9/10 : ℚ) - 0.5) * 0.15) * 1000 : ℚ) : ℤ) : ℚ) / 10 := rfl
    rw [hfield]
    have h560 : ((0.5 + ((9/10 : ℚ) - 0.5) * 0.15) * 1000 : ℚ) = ((560 : ℤ) : ℚ) := by norm_num
    rw [h560, round_intCast]
    norm_num
  refine ⟨h50, h56, ?_⟩
  rw [h50, h56]
  norm_num

/-- C5 (amended): lineup evaluation never propagates an error — whenever the
server evaluation fails, `evaluateLineup` still resolves to a result whose
`winProbability` is a number in `[2, 98]`; when additionally every
per-player prediction fetch fails, the local heuristic completes on empty
data and returns exactly 50.0; the jittered fallback (within ±7.5 points of
50) is produced only when the heuristic body itself throws. -/
theorem evaluate_never_fails
    (body : Option (List (Option Prediction) × List (Option Prediction)))
    (r : ℚ) (n m : ℕ) (h0 : 0 ≤ r) (h1 : r < 1) :
    (2 ≤ (evaluateLineup none body r).winProbability ∧
      (evaluateLineup none body r).winProbability ≤ 98) ∧
    (evaluateLineup none
      (some (List.replicate n none, List.replicate m none)) r).winProbability = 50 ∧
    |(fallbackResult r).winProbability - 50| ≤ 7.5 := by
  have hfb := fallback_winProb_bounds h0 h1
  refine ⟨?_, ?_, ?_⟩
  · match body with
    | some (hp, ap) => exact body_winProb_mem hp ap
    | none =>
      constructor
      · have : (evaluateLineup none none r).winProbability = (fallbackResult r).winProbability := rfl
        rw [this]
        linarith [hfb.1]
      · have : (evaluateLineup none none r).winProbability = (fallbackResult r).winProbability := rfl
        rw [this]
        linarith [hfb.2]
  · have hx : (evaluateLineup none
        (some (List.replicate n none, List.replicate m none)) r).winProbability =
        (localEvaluateBody (List.replicate n none) (List.replicate m none)).winProbability := rfl
    rw [hx]
    exact body_winProb_of_eq_summaries _ _
      (by rw [summarize_replicate_none, summarize_replicate_none])
  · rw [abs_le]
    constructor
    · linarith [hfb.1]
    · linarith [hfb.2]

/-- Witness for `evaluate_never_fails`: the totally failed evaluation at
`r = 0` stays in range, the empty-data heuristic returns 50, and the
fallback sits within ±7.5 of 50. -/
theorem evaluate_never_fails_witness :
    (2 ≤ (evaluateLineup none none 0).winProbability ∧
      (evaluateLineup none none 0).winProbability ≤ 98) ∧
    (evaluateLineup none
      (some (List.replicate 1 none, List.replicate 1 none)) 0).winProbability = 50 ∧
    |(fallbackResult 0).winProbability - 50| ≤ 7.5 :=
  evaluate_never_fails none 0 1 1 (by norm_num) (by norm_num)

/-- C4: holding the away fetch results fixed, appending one more available
home player whose effective confidence (`overall_confidence || 0.7`) is
strictly above the home side's current average confidence and whose points
contribution is non-negative never decreases the reported home win
probability (away points are assumed non-negative, as they are for
non-negative predicted stats). -/
theorem heuristic_monotone_add_player (hp ap : List (Option Prediction))
    (p : Prediction)
    (hconf : (summarize hp).avgConfidence < confOf p)
    (hpts : 0 ≤ pointsOf p)
    (haway : 0 ≤ (summarize ap).points) :
    (localEvaluateBody hp ap).winProbability ≤
      (localEvaluateBody (hp ++ [some p]) ap).winProbability := by
  have hsum' : summarize (hp ++ [some p]) =
      { avgConfidence := (((hp.filterMap id).map confOf).sum + confOf p) /
          (((hp.filterMap id).length : ℚ) + 1)
        points := ((hp.filterMap id).map pointsOf).sum + pointsOf p
        yards := ((hp.filterMap id).map yardsOf).sum + yardsOf p } := by
    rw [summarize_eq]
    simp [List.filterMap_append]
  have hsum : summarize hp =
      { avgConfidence := if (hp.filterMap id).length = 0 then 0.7
          else ((hp.filterMap id).map confOf).sum / ((hp.filterMap id).length : ℚ)
        points := ((hp.filterMap id).map pointsOf).sum
        yards := ((hp.filterMap id).map yardsOf).sum } := summarize_eq hp
  have hA' : (summarize (hp ++ [some p])).avgConfidence =
      (((hp.filterMap id).map confOf).sum + confOf p) /
        (((hp.filterMap id).length : ℚ) + 1) := by rw [hsum']
  have hP' : (summarize (hp ++ [some p])).points =
      ((hp.filterMap id).map pointsOf).sum + pointsOf p := by rw [hsum']
  have hA0 : (summarize hp).avgConfidence =
      if (hp.filterMap id).length = 0 then 0.7
      else ((hp.filterMap id).map confOf).sum / ((hp.filterMap id).length : ℚ) := by
    rw [hsum]
  have hP0 : (summarize hp).points = ((hp.filterMap id).map pointsOf).sum := by rw [hsum]
  have havg : (summarize hp).avgConfidence ≤ (summarize (hp ++ [some p])).avgConfidence := by
    rw [hA0] at hconf
    rw [hA0, hA']
    by_cases hn : (hp.filterMap id).length = 0
    · have hA : hp.filterMap id = [] := List.length_eq_zero.mp hn
      simp [hA] at hconf ⊢
      linarith
    · rw [if_neg hn] at hconf ⊢
      have hnpos : (0 : ℚ) < ((hp.filterMap id).length : ℚ) := by
        have : 0 < (hp.filterMap id).length := Nat.pos_of_ne_zero hn
        exact_mod_cast this
      have hn1pos : (0 : ℚ) < ((hp.filterMap id).length : ℚ) + 1 := by linarith
      rw [div_le_div_iff₀ hnpos hn1pos]
      have hlt : ((hp.filterMap id).map confOf).sum <
          confOf p * ((hp.filterMap id).length : ℚ) := by
        rw [div_lt_iff₀ hnpos] at hconf
        exact hconf
      nlinarith
  have hpoints : (summarize hp).points ≤ (summarize (hp ++ [some p])).points := by
    rw [hP0, hP']
    linarith
  have hD : (0 : ℚ) < max 1 ((summarize ap).points + 1) :=
    lt_of_lt_of_le zero_lt_one (le_max_left _ _)
  have hHS : homeStrength (summarize hp) (summarize ap) ≤
      homeStrength (summarize (hp ++ [some p])) (summarize ap) := by
    unfold homeStrength
    have hdiv : (summarize hp).points / max 1 ((summarize ap).points + 1) ≤
        (summarize (hp ++ [some p])).points / max 1 ((summarize ap).points + 1) :=
      div_le_div_of_nonneg_right hpoints hD.le
    have := mul_le_mul_of_nonneg_right havg (show (0 : ℚ) ≤ 0.6 by norm_num)
    have := mul_le_mul_of_nonneg_right hdiv (show (0 : ℚ) ≤ 0.4 by norm_num)
    linarith
  have hAS : awayStrength (summarize (hp ++ [some p])) (summarize ap) ≤
      awayStrength (summarize hp) (summarize ap) := by
    unfold awayStrength
    have hden0 : (0 : ℚ) < max 1 ((summarize hp).points + 1) :=
      lt_of_lt_of_le zero_lt_one (le_max_left _ _)
    have hden : max 1 ((summarize hp).points + 1) ≤
        max 1 ((summarize (hp ++ [some p])).points + 1) :=
      max_le_max le_rfl (by linarith)
    have hdiv : (summarize ap).points / max 1 ((summarize (hp ++ [some p])).points + 1) ≤
        (summarize ap).points / max 1 ((summarize hp).points + 1) :=
      div_le_div_of_nonneg_left haway hden0 hden
    have := mul_le_mul_of_nonneg_right hdiv (show (0 : ℚ) ≤ 0.4 by norm_num)
    linarith
  have hdiffle : homeStrength (summarize hp) (summarize ap) -
      awayStrength (summarize hp) (summarize ap) ≤
      homeStrength (summarize (hp ++ [some p])) (summarize ap) -
      awayStrength (summarize (hp ++ [some p])) (summarize ap) := by
    linarith
  have hf1 : (localEvaluateBody hp ap).winProbability =
      ((round ((max 0.02 (min 0.98 (sigmoid
        (((homeStrength (summarize hp) (summarize ap) -
           awayStrength (summarize hp) (summarize ap) : ℚ)) : ℝ))) : ℝ) * 1000) : ℤ) : ℚ) / 10 := rfl
  have hf2 : (localEvaluateBody (hp ++ [some p]) ap).winProbability =
      ((round ((max 0.02 (min 0.98 (sigmoid
        (((homeStrength (summarize (hp ++ [some p])) (summarize ap) -
           awayStrength (summarize (hp ++ [some p])) (summarize ap) : ℚ)) : ℝ))) : ℝ) * 1000) : ℤ) : ℚ) / 10 := rfl
  rw [hf1, hf2]
  have hsig : sigmoid (((homeStrength (summarize hp) (summarize ap) -
      awayStrength (summarize hp) (summarize ap) : ℚ)) : ℝ) ≤
      sigmoid (((homeStrength (summarize (hp ++ [some p])) (summarize ap) -
        awayStrength (summarize (hp ++ [some p])) (summarize ap) : ℚ)) : ℝ) :=
    sigmoid_mono_of_le (by exact_mod_cast hdiffle)
  have hclamp : (max 0.02 (min 0.98 (sigmoid
      (((homeStrength (summarize hp) (summarize ap) -
         awayStrength (summarize hp) (summarize ap) : ℚ)) : ℝ))) : ℝ) ≤
      max 0.02 (min 0.98 (sigmoid
      (((homeStrength (summarize (hp ++ [some p])) (summarize ap) -
         awayStrength (summarize (hp ++ [some p])) (summarize ap) : ℚ)) : ℝ))) :=
    max_le_max le_rfl (min_le_min le_rfl hsig)
  have hround := round_mono_of_le
    (mul_le_mul_of_nonneg_right hclamp (show (0 : ℝ) ≤ 1000 by norm_num))
  have hcast : ((round ((max 0.02 (min 0.98 (sigmoid
      (((homeStrength (summarize hp) (summarize ap) -
         awayStrength (summarize hp) (summarize ap) : ℚ)) : ℝ))) : ℝ) * 1000) : ℤ) : ℚ) ≤
      ((round ((max 0.02 (min 0.98 (sigmoid
      (((homeStrength (summarize (hp ++ [some p])) (summarize ap) -
         awayStrength (summarize (hp ++ [some p])) (summarize ap) : ℚ)) : ℝ))) : ℝ) * 1000) : ℤ) : ℚ) :=
    Int.cast_le.mpr hround
  linarith

/-- Witness for `heuristic_monotone_add_player`: starting from empty rosters,
adding one available home player with confidence `0.9` and no stat
projections does not decrease the reported home win probability. -/
theorem heuristic_monotone_add_player_witness :
    (localEvaluateBody [] []).winProbability ≤
      (localEvaluateBody ([] ++ [some pWitness]) []).winProbability :=
  heuristic_monotone_add_player [] [] pWitness
    (by norm_num [summarize, confOf, jsOr, pWitness])
    (by norm_num [pointsOf, statOf, jsOr, pWitness])
    (by norm_num [summarize])

end SeeThePlay
